import Mathlib

/-!
Verification development for the youtube-transcript-mcp repository.

Shallow embedding of:
- the JSON value model used by every component (JValue, JSON.stringify
  compact and pretty variants, a JSON.parse model);
- src/src/index.test.ts's companion module mcp.ts (tool registry, callTool,
  errText, the CallToolRequestSchema dispatch boundary);
- src/src/index.ts's NextJsSseTransport (start / send / sendEndpoint /
  close / handlePostMessage);
- src/unnamed/part_000's Express session directory and POST /api/mcp
  handler;
- src/src/server.ts's create_transcript tool handler (video-id extraction
  and the database-operation trace);
- src/src/transcript-formatter.ts (formatSRT, formatVTT, formatTime,
  exportTranscript).

JavaScript numbers are modelled as rationals; machine-level float rounding
is out of scope for every claim treated here (all claims are about control
flow, string structure and integer arithmetic on floors/mods).
-/

namespace YT

/-- Model of a JavaScript/JSON value. Numbers are modelled as rationals. -/
inductive JValue where
  | null : JValue
  | bool (b : Bool) : JValue
  | num (q : ℚ) : JValue
  | str (s : String) : JValue
  | arr (elems : List JValue) : JValue
  | obj (fields : List (String × JValue)) : JValue

/-- `padStart(n, c)` from JavaScript: left-pad to length `n` with `c`. -/
def padStart (s : String) (n : Nat) (c : Char) : String :=
  if s.length ≥ n then s
  else String.mk (List.replicate (n - s.length) c) ++ s

/-- Decimal string of a rational, matching JavaScript `Number.prototype.toString`
on the finite-decimal range used by this program (integers print exactly;
non-integers with denominator dividing a power of ten print as exact
decimals with no trailing zeros, which is what JS prints for such values). -/
def jsNumToString (q : ℚ) : String :=
  let sign := if q < 0 then "-" else ""
  let n := q.num.natAbs
  let d := q.den
  if d = 1 then sign ++ toString n
  else
    match (List.range 1101).find? (fun k => 10 ^ k % d = 0) with
    | some k =>
        let m := n * 10 ^ k / d
        sign ++ toString (m / 10 ^ k) ++ "." ++ padStart (toString (m % 10 ^ k)) k '0'
    | none => sign ++ toString n ++ "/" ++ toString d

/-- Lower-case hex digits of a natural number (for \uXXXX escapes). -/
def toHex (n : Nat) : String := String.mk (Nat.toDigits 16 n)

/-- JSON.stringify escaping of a single character inside a string literal. -/
def escapeJsonChar (c : Char) : String :=
  if c = '"' then "\\\""
  else if c = '\\' then "\\\\"
  else if c = '\n' then "\\n"
  else if c = '\r' then "\\r"
  else if c = '\t' then "\\t"
  else if c = '\x08' then "\\b"
  else if c = '\x0c' then "\\f"
  else if c.toNat < 32 then "\\u" ++ padStart (toHex c.toNat) 4 '0'
  else String.singleton c

/-- JSON string literal with quotes and escapes, as JSON.stringify renders it. -/
def quoteJson (s : String) : String :=
  "\"" ++ String.join (s.data.map escapeJsonChar) ++ "\""

mutual

/-- Compact `JSON.stringify(value)` (no indentation). -/
def jsonStringify : JValue → String
  | .null => "null"
  | .bool true => "true"
  | .bool false => "false"
  | .num q => jsNumToString q
  | .str s => quoteJson s
  | .arr xs => "[" ++ jsonStringifyElems xs ++ "]"
  | .obj fs => "\x7b" ++ jsonStringifyFields fs ++ "\x7d"

def jsonStringifyElems : List JValue → String
  | [] => ""
  | [x] => jsonStringify x
  | x :: y :: xs => jsonStringify x ++ "," ++ jsonStringifyElems (y :: xs)

def jsonStringifyFields : List (String × JValue) → String
  | [] => ""
  | [(k, v)] => quoteJson k ++ ":" ++ jsonStringify v
  | (k, v) :: f :: fs => quoteJson k ++ ":" ++ jsonStringify v ++ "," ++ jsonStringifyFields (f :: fs)

end

/-- Indentation used by `JSON.stringify(value, null, 2)` at depth `d`. -/
def jsonIndent (d : Nat) : String := String.mk (List.replicate (2 * d) ' ')

mutual

/-- Pretty `JSON.stringify(value, null, 2)` at nesting depth `d`. -/
def jsonPretty (d : Nat) : JValue → String
  | .null => "null"
  | .bool true => "true"
  | .bool false => "false"
  | .num q => jsNumToString q
  | .str s => quoteJson s
  | .arr [] => "[]"
  | .arr (x :: xs) =>
      "[\n" ++ jsonPrettyElems (d + 1) (x :: xs) ++ "\n" ++ jsonIndent d ++ "]"
  | .obj [] => "\x7b\x7d"
  | .obj (f :: fs) =>
      "\x7b\n" ++ jsonPrettyFields (d + 1) (f :: fs) ++ "\n" ++ jsonIndent d ++ "\x7d"

def jsonPrettyElems (d : Nat) : List JValue → String
  | [] => ""
  | [x] => jsonIndent d ++ jsonPretty d x
  | x :: y :: xs => jsonIndent d ++ jsonPretty d x ++ ",\n" ++ jsonPrettyElems d (y :: xs)

def jsonPrettyFields (d : Nat) : List (String × JValue) → String
  | [] => ""
  | [(k, v)] => jsonIndent d ++ quoteJson k ++ ": " ++ jsonPretty d v
  | (k, v) :: f :: fs =>
      jsonIndent d ++ quoteJson k ++ ": " ++ jsonPretty d v ++ ",\n" ++ jsonPrettyFields d (f :: fs)

end

/-- `jsonText(value)` from mcp.ts: `JSON.stringify(value, null, 2)`. -/
def jsonText (v : JValue) : String := jsonPretty 0 v

/-- Strip `p` from the front of `s`; `some rest` on success. -/
def stripPrefixChars : List Char → List Char → Option (List Char)
  | [], s => some s
  | _, [] => none
  | p :: ps, c :: cs => if p == c then stripPrefixChars ps cs else none

/-- JSON whitespace. -/
def isJsonWs (c : Char) : Bool := c == ' ' || c == '\t' || c == '\n' || c == '\r'

def skipWs : List Char → List Char
  | [] => []
  | c :: cs => if isJsonWs c then skipWs cs else c :: cs

def hexVal (c : Char) : Option Nat :=
  if c.isDigit then some (c.toNat - 48)
  else if 'a' ≤ c ∧ c ≤ 'f' then some (c.toNat - 87)
  else if 'A' ≤ c ∧ c ≤ 'F' then some (c.toNat - 55)
  else none

/-- Run of decimal digits: value, digit count, remainder. -/
def parseDigitsAux : List Char → Nat → Nat → Nat × Nat × List Char
  | [], acc, cnt => (acc, cnt, [])
  | c :: cs, acc, cnt =>
      if c.isDigit then parseDigitsAux cs (acc * 10 + (c.toNat - 48)) (cnt + 1)
      else (acc, cnt, c :: cs)

/-- At least one decimal digit, else failure. -/
def parseDigits (s : List Char) : Option (Nat × Nat × List Char) :=
  let r := parseDigitsAux s 0 0
  if r.2.1 = 0 then none else some r

/-- JSON string body after the opening quote: content chars and remainder
after the closing quote. -/
def parseJString : Nat → List Char → Option (List Char × List Char)
  | 0, _ => none
  | _, [] => none
  | f + 1, c :: cs =>
    if c == '"' then some ([], cs)
    else if c == '\\' then
      match cs with
      | [] => none
      | e :: cs2 =>
        let simple : Option Char :=
          if e == '"' then some '"'
          else if e == '\\' then some '\\'
          else if e == '/' then some '/'
          else if e == 'b' then some '\x08'
          else if e == 'f' then some '\x0c'
          else if e == 'n' then some '\n'
          else if e == 'r' then some '\r'
          else if e == 't' then some '\t'
          else none
        match simple with
        | some ch => (parseJString f cs2).map (fun r => (ch :: r.1, r.2))
        | none =>
          if e == 'u' then
            match cs2 with
            | a :: b :: c3 :: d :: cs3 =>
              match hexVal a, hexVal b, hexVal c3, hexVal d with
              | some ha, some hb, some hc, some hd =>
                  (parseJString f cs3).map
                    (fun r => (Char.ofNat (((ha * 16 + hb) * 16 + hc) * 16 + hd) :: r.1, r.2))
              | _, _, _, _ => none
            | _ => none
          else none
    else if c.toNat < 32 then none
    else (parseJString f cs).map (fun r => (c :: r.1, r.2))

/-- JSON number per the strict JSON.parse grammar. -/
def parseNumber (s : List Char) : Option (ℚ × List Char) :=
  let signAndRest : Bool × List Char :=
    match s with
    | '-' :: cs => (true, cs)
    | _ => (false, s)
  let neg := signAndRest.1
  let s1 := signAndRest.2
  match parseDigits s1 with
  | none => none
  | some (ip, ipcnt, s2) =>
    let leadOk : Bool :=
      match s1 with
      | '0' :: _ => ipcnt == 1
      | _ => true
    if !leadOk then none
    else
      let fracStep : Option (Nat × Nat × List Char) :=
        match s2 with
        | '.' :: cs => parseDigits cs
        | _ => some (0, 0, s2)
      match fracStep with
      | none => none
      | some (fracNum, fracLen, s3) =>
        let expStep : Option (Int × List Char) :=
          match s3 with
          | c :: cs =>
            if c == 'e' || c == 'E' then
              let se : Int × List Char :=
                match cs with
                | '+' :: r => (1, r)
                | '-' :: r => (-1, r)
                | _ => (1, cs)
              match parseDigits se.2 with
              | some (e, _, rest) => some (se.1 * e, rest)
              | none => none
            else some (0, c :: cs)
          | [] => some (0, [])
        match expStep with
        | none => none
        | some (ex, s4) =>
          let base : ℚ := ((ip * 10 ^ fracLen + fracNum : ℕ) : ℚ) / ((10 ^ fracLen : ℕ) : ℚ)
          let scaled : ℚ :=
            if 0 ≤ ex then base * ((10 ^ ex.toNat : ℕ) : ℚ)
            else base / ((10 ^ (-ex).toNat : ℕ) : ℚ)
          some ((if neg then -scaled else scaled), s4)

mutual

/-- JSON value parser (fuel bounds nesting depth). -/
def parseValue : Nat → List Char → Option (JValue × List Char)
  | 0, _ => none
  | f + 1, s0 =>
    match skipWs s0 with
    | [] => none
    | c :: cs =>
      if c == '"' then
        (parseJString (cs.length + 1) cs).map (fun r => (JValue.str (String.mk r.1), r.2))
      else if c == '[' then
        match skipWs cs with
        | ']' :: rest => some (.arr [], rest)
        | cs2 => (parseElems f cs2).map (fun r => (JValue.arr r.1, r.2))
      else if c == '\x7b' then
        match skipWs cs with
        | '\x7d' :: rest => some (.obj [], rest)
        | cs2 => (parseMembers f cs2).map (fun r => (JValue.obj r.1, r.2))
      else
        match stripPrefixChars "null".data (c :: cs) with
        | some rest => some (.null, rest)
        | none =>
          match stripPrefixChars "true".data (c :: cs) with
          | some rest => some (.bool true, rest)
          | none =>
            match stripPrefixChars "false".data (c :: cs) with
            | some rest => some (.bool false, rest)
            | none => (parseNumber (c :: cs)).map (fun r => (JValue.num r.1, r.2))

/-- Comma-separated array elements, consuming the closing bracket. -/
def parseElems : Nat → List Char → Option (List JValue × List Char)
  | 0, _ => none
  | f + 1, s =>
    match parseValue f s with
    | none => none
    | some (v, rest) =>
      match skipWs rest with
      | ',' :: rest2 => (parseElems f rest2).map (fun r => (v :: r.1, r.2))
      | ']' :: rest2 => some ([v], rest2)
      | _ => none

/-- Comma-separated object members, consuming the closing brace. -/
def parseMembers : Nat → List Char → Option (List (String × JValue) × List Char)
  | 0, _ => none
  | f + 1, s =>
    match skipWs s with
    | '"' :: cs =>
      match parseJString (cs.length + 1) cs with
      | none => none
      | some (key, rest) =>
        match skipWs rest with
        | ':' :: rest2 =>
          match parseValue f rest2 with
          | none => none
          | some (v, rest3) =>
            match skipWs rest3 with
            | ',' :: rest4 => (parseMembers f rest4).map (fun r => ((String.mk key, v) :: r.1, r.2))
            | '\x7d' :: rest4 => some ([(String.mk key, v)], rest4)
            | _ => none
        | _ => none
    | _ => none

end

/-- Model of `JSON.parse`: `none` means the parse throws. -/
def jsonParse (s : String) : Option JValue :=
  match parseValue (s.length + 1) s.data with
  | some (v, rest) => if (skipWs rest).isEmpty then some v else none
  | none => none

/-! JavaScript `Map` semantics over association lists: `set` overwrites in
place, `get` returns the bound value, `delete` removes the binding. -/

def mapGet {α : Type} : List (String × α) → String → Option α
  | [], _ => none
  | (k, v) :: rest, key => if k == key then some v else mapGet rest key

def mapSet {α : Type} : List (String × α) → String → α → List (String × α)
  | [], key, v => [(key, v)]
  | (k, w) :: rest, key, v =>
      if k == key then (key, v) :: rest else (k, w) :: mapSet rest key v

def mapDelete {α : Type} (m : List (String × α)) (key : String) : List (String × α) :=
  m.filter (fun p => !(p.1 == key))

/-- JavaScript `String.prototype.trim`: strip leading and trailing
whitespace. -/
def jsTrim (s : String) : String :=
  String.mk (((s.data.dropWhile Char.isWhitespace).reverse.dropWhile Char.isWhitespace).reverse)

mutual

/-- JavaScript `String(value)` conversion. -/
def jsToString : JValue → String
  | .null => "null"
  | .bool true => "true"
  | .bool false => "false"
  | .num q => jsNumToString q
  | .str s => s
  | .arr xs => jsToStringElems xs
  | .obj _ => "[object Object]"

/-- `Array.prototype.toString`: elements joined by commas, null rendered empty. -/
def jsToStringElems : List JValue → String
  | [] => ""
  | [x] => (match x with | .null => "" | v => jsToString v)
  | x :: y :: xs =>
      (match x with | .null => "" | v => jsToString v) ++ "," ++ jsToStringElems (y :: xs)

end

/-- UTF-8 bytes of a character (for encodeURIComponent). -/
def utf8Bytes (c : Char) : List Nat :=
  let n := c.toNat
  if n < 0x80 then [n]
  else if n < 0x800 then [0xC0 + n / 64, 0x80 + n % 64]
  else if n < 0x10000 then [0xE0 + n / 4096, 0x80 + (n / 64) % 64, 0x80 + n % 64]
  else [0xF0 + n / 262144, 0x80 + (n / 4096) % 64, 0x80 + (n / 64) % 64, 0x80 + n % 64]

def hexDigitUpper (n : Nat) : Char :=
  if n < 10 then Char.ofNat (48 + n) else Char.ofNat (55 + n)

/-- Characters encodeURIComponent leaves unescaped. -/
def isUriUnreserved (c : Char) : Bool :=
  c.isAlpha || c.isDigit || c == '-' || c == '_' || c == '.' || c == '!' ||
  c == '~' || c == '*' || c == '\'' || c == '(' || c == ')'

def encodeURIComponent (s : String) : String :=
  String.join (s.data.map (fun c =>
    if isUriUnreserved c then String.singleton c
    else String.join ((utf8Bytes c).map (fun b =>
      "%" ++ String.mk [hexDigitUpper (b / 16), hexDigitUpper (b % 16)]))))

/-! Model of mcp.ts (the module under test in src/src/index.test.ts):
tool registry, callTool, errText and the CallToolRequestSchema dispatch
boundary of createMcpServer. The downstream fetch performed by
http-client.ts's requestJson is the external collaborator, modelled as an
oracle from the request parameters to a response (or a thrown error). -/

/-- configSchema's parsed configuration. -/
structure McpConfig where
  baseUrl : String
  apiKey : String
  timeoutMs : Nat
  debug : Bool
deriving DecidableEq

/-- `testConfig` from src/src/index.test.ts. -/
def testConfig : McpConfig :=
  { baseUrl := "http://localhost:3000", apiKey := "test-api-key", timeoutMs := 5000, debug := false }

/-- A query-string value as typed in requestJson's `query` record. -/
inductive QVal where
  | str (s : String)
  | num (q : ℚ)
  | bool (b : Bool)
  | null
  | undefined
deriving DecidableEq

/-- The parameters requestJson receives: one downstream HTTP request. -/
structure HttpReq where
  baseUrl : String
  path : String
  method : String
  headers : List (String × String)
  query : Option (List (String × QVal))
  body : Option JValue
  timeoutMs : Nat

/-- A settled fetch response (status, statusText, body text). -/
structure FetchResponse where
  status : Nat
  statusText : String
  bodyText : String
deriving DecidableEq

/-- The fetch collaborator: `.error msg` models fetch rejecting (network
failure or timeout abort) with an Error carrying `msg`. -/
def FetchOracle : Type := HttpReq → Except String FetchResponse

/-- Failures thrown inside a tool handler: http-client.ts's HttpError (with
status and raw body) or a plain Error with a message. -/
inductive ToolError where
  | httpError (status : Nat) (statusText : String) (bodyText : String)
  | error (message : String)

/-- The `message` property of the thrown failure (HttpError's constructor
sets it to "HTTP status statusText"). -/
def ToolError.message : ToolError → String
  | .httpError st stx _ => "HTTP " ++ toString st ++ " " ++ stx
  | .error m => m

/-- requestJson from src/src/http-client.ts: non-2xx throws HttpError with
the body text; otherwise blank body gives null, JSON bodies parse, other
bodies are returned as raw text. -/
def requestJson (p : HttpReq) (o : FetchOracle) : Except ToolError JValue :=
  match o p with
  | .error m => .error (.error m)
  | .ok res =>
    if 200 ≤ res.status && res.status ≤ 299 then
      if jsTrim res.bodyText == "" then .ok .null
      else
        match jsonParse res.bodyText with
        | some v => .ok v
        | none => .ok (.str res.bodyText)
    else .error (.httpError res.status res.statusText res.bodyText)

/-- authHeaders from mcp.ts. -/
def authHeaders (apiKey : String) : List (String × String) :=
  [("Accept", "application/json"),
   ("Content-Type", "application/json"),
   ("Authorization", "Bearer " ++ apiKey)]

abbrev Args := List (String × JValue)

/-- callYtsmV2 from mcp.ts: builds the downstream request (headers from the
ambient credential; body only for POST, query only for GET). -/
def callYtsmV2 (cfg : McpConfig) (path method : String)
    (args : Option Args) (query : Option (List (String × QVal))) : HttpReq :=
  { baseUrl := cfg.baseUrl
    path := path
    method := method
    headers := authHeaders cfg.apiKey
    body := if method == "POST" then some (.obj (args.getD [])) else none
    query := if method == "GET" then query else none
    timeoutMs := cfg.timeoutMs }

/-- A handler outcome paired with the trace of downstream requests issued. -/
abbrev HandlerResult := Except ToolError JValue × List HttpReq

def argNum (args : Args) (k : String) : Option ℚ :=
  match mapGet args k with
  | some (.num q) => some q
  | _ => none

def argStr (args : Args) (k : String) : Option String :=
  match mapGet args k with
  | some (.str s) => some s
  | _ => none

def optStrQ : Option String → QVal
  | some s => .str s
  | none => .undefined

/-- JavaScript `x ?? dflt` over a possibly-absent object field. -/
def nullish (v : Option JValue) (dflt : JValue) : JValue :=
  match v with
  | none => dflt
  | some .null => dflt
  | some x => x

/-- Structural input-schema contract as declared in the registry
(the subset of JSON Schema the descriptors use: typed properties,
string enums, required lists, additionalProperties). -/
inductive JsonSchema where
  | str (enum : Option (List String))
  | num
  | bool
  | arr (items : JsonSchema)
  | obj (props : List (String × JsonSchema)) (required : List String) (additionalProps : Bool)

/-- JSON-Schema conformance for the fragment above (fuel bounds depth). -/
def satisfiesFuel : Nat → JsonSchema → JValue → Bool
  | 0, _, _ => false
  | _ + 1, .str none, .str _ => true
  | _ + 1, .str (some es), .str s => es.contains s
  | _ + 1, .num, .num _ => true
  | _ + 1, .bool, .bool _ => true
  | f + 1, .arr it, .arr xs => xs.all (satisfiesFuel f it)
  | f + 1, .obj props required addl, .obj fields =>
      required.all (fun k => fields.any (fun kv => kv.1 == k)) &&
      (addl || fields.all (fun kv => props.any (fun p => p.1 == kv.1))) &&
      fields.all (fun kv =>
        match mapGet props kv.1 with
        | some sub => satisfiesFuel f sub kv.2
        | none => true)
  | _ + 1, _, _ => false

def satisfiesSchema (s : JsonSchema) (v : JValue) : Bool := satisfiesFuel 100 s v

/-- A tool descriptor (`schema` field of a registry entry). -/
structure ToolDescriptor where
  name : String
  description : String
  inputSchema : JsonSchema

/-- A registry entry: descriptor plus handler. -/
structure Tool where
  schema : ToolDescriptor
  handler : Args → McpConfig → FetchOracle → HandlerResult

/-- transcribe_v2: POST /api/v2/transcribe forwarding the argument object. -/
def transcribe_v2 : Tool :=
  { schema :=
      { name := "transcribe_v2"
        description := "POST /api/v2/transcribe. Fast caption-based transcript (no ASR). Use manual or auto captions only."
        inputSchema := .obj
          [("video", .str none),
           ("language", .str none),
           ("source", .str (some ["auto", "manual"])),
           ("format", .obj [("timestamp", .bool), ("paragraphs", .bool), ("words", .bool)] [] false)]
          ["video"] false }
    handler := fun args cfg o =>
      let req := callYtsmV2 cfg "/api/v2/transcribe" "POST" (some args) none
      (requestJson req o, [req]) }

/-- list_transcripts: GET /api/v1/history with defaulted query parameters. -/
def list_transcripts : Tool :=
  { schema :=
      { name := "list_transcripts"
        description := "GET /api/v1/history. List or search user transcripts. Use search to find by video id, title, or transcript content."
        inputSchema := .obj
          [("search", .str none),
           ("limit", .num),
           ("page", .num),
           ("status", .str (some ["all", "queued", "processing", "succeeded", "failed"])),
           ("language", .str none),
           ("include_segments", .bool)]
          [] false }
    handler := fun args cfg o =>
      let req := callYtsmV2 cfg "/api/v1/history" "GET" none (some
        [("limit", .num ((argNum args "limit").getD 10)),
         ("page", .num ((argNum args "page").getD 1)),
         ("search", optStrQ (argStr args "search")),
         ("status", optStrQ (argStr args "status")),
         ("language", optStrQ (argStr args "language")),
         ("include_segments",
           match mapGet args "include_segments" with
           | some (.bool true) => QVal.str "true"
           | _ => QVal.undefined)])
      (requestJson req o, [req]) }

/-- get_transcript: GET /api/v1/transcripts/{video_id}. -/
def get_transcript : Tool :=
  { schema :=
      { name := "get_transcript"
        description := "GET /api/v1/transcripts/{video_id}. Get full transcript for a video."
        inputSchema := .obj
          [("video_id", .str none),
           ("id", .str none),
           ("language", .str none),
           ("source", .str (some ["auto", "manual", "asr"])),
           ("include_timestamps", .bool)]
          ["video_id"] false }
    handler := fun args cfg o =>
      let videoId : String :=
        match mapGet args "video_id" with
        | none => ""
        | some .null => ""
        | some v => jsToString v
      let req := callYtsmV2 cfg ("/api/v1/transcripts/" ++ encodeURIComponent videoId) "GET" none (some
        [("id", optStrQ (argStr args "id")),
         ("language", optStrQ (argStr args "language")),
         ("source", optStrQ (argStr args "source")),
         ("include_timestamps",
           match mapGet args "include_timestamps" with
           | some (.bool false) => QVal.str "false"
           | _ => QVal.undefined)])
      (requestJson req o, [req]) }

/-- get_stats: parallel GET /api/v1/credits and GET /api/v1/history, then a
summary object (credits, transcripts_total, plan, rate_limit). -/
def get_stats : Tool :=
  { schema :=
      { name := "get_stats"
        description := "Get stats: credits left, transcripts created, plan, rate limit."
        inputSchema := .obj [] [] false }
    handler := fun _args cfg o =>
      let req1 := callYtsmV2 cfg "/api/v1/credits" "GET" none none
      let req2 := callYtsmV2 cfg "/api/v1/history" "GET" none (some [("limit", .num 1), ("page", .num 1)])
      let trace := [req1, req2]
      match requestJson req1 o with
      | .error e => (.error e, trace)
      | .ok creditsRes =>
        match requestJson req2 o with
        | .error e => (.error e, trace)
        | .ok historyRes =>
          let credits : Args := match creditsRes with | .obj f => f | _ => []
          let history : Args := match historyRes with | .obj f => f | _ => []
          let total : JValue :=
            match mapGet history "pagination" with
            | some (.obj pf) => nullish (mapGet pf "total") (.num 0)
            | _ => .num 0
          (.ok (.obj
            [("credits", nullish (mapGet credits "credits") (.num 0)),
             ("transcripts_total", total),
             ("plan", nullish (mapGet credits "plan") (.str "free")),
             ("rate_limit", nullish (mapGet credits "rate_limit") (.num 100))]), trace) }

/-- delete_transcript: bulk delete by explicit ids, or resolve one id from a
video_id first; throws when nothing identifies a transcript. -/
def delete_transcript : Tool :=
  { schema :=
      { name := "delete_transcript"
        description := "POST /api/v1/transcripts/bulk-delete. Delete transcripts by ids or by video_id."
        inputSchema := .obj
          [("ids", .arr (.str none)),
           ("video_id", .str none)]
          [] false }
    handler := fun args cfg o =>
      let ids0 : List String :=
        match mapGet args "ids" with
        | some (.arr xs) => xs.filterMap (fun v => match v with | .str s => some s | _ => none)
        | _ => []
      let videoId : String :=
        match mapGet args "video_id" with
        | some (.str s) => jsTrim s
        | _ => ""
      let bulk : List String → List HttpReq → HandlerResult := fun ids trace =>
        let req := callYtsmV2 cfg "/api/v1/transcripts/bulk-delete" "POST"
          (some [("ids", .arr (ids.map .str))]) none
        (requestJson req o, trace ++ [req])
      if ids0.isEmpty && !(videoId == "") then
        let req1 := callYtsmV2 cfg ("/api/v1/transcripts/" ++ encodeURIComponent videoId) "GET" none none
        match requestJson req1 o with
        | .error e => (.error e, [req1])
        | .ok transcript =>
          let tid : String :=
            match transcript with
            | .obj f => (match mapGet f "id" with | some (.str s) => s | _ => "")
            | _ => ""
          if tid == "" then
            (.error (.error "Provide `ids` or `video_id` to delete transcripts."), [req1])
          else bulk [tid] [req1]
      else if ids0.isEmpty then
        (.error (.error "Provide `ids` or `video_id` to delete transcripts."), [])
      else bulk ids0 [] }

/-- The tool registry of mcp.ts, in declaration order. -/
def toolRegistry : List (String × Tool) :=
  [("transcribe_v2", transcribe_v2),
   ("list_transcripts", list_transcripts),
   ("get_transcript", get_transcript),
   ("get_stats", get_stats),
   ("delete_transcript", delete_transcript)]

/-- listTools from mcp.ts. -/
def listTools : List ToolDescriptor := toolRegistry.map (fun p => p.2.schema)

/-- callTool from mcp.ts: look the name up; unknown names throw
"Unknown tool: name"; otherwise the handler runs on the argument object
(there is no schema validation step). The second component is the trace of
downstream requests the handler issued. -/
def callTool (name : String) (args : Args) (cfg : McpConfig) (o : FetchOracle) : HandlerResult :=
  match mapGet toolRegistry name with
  | none => (.error (.error ("Unknown tool: " ++ name)), [])
  | some t => t.handler args cfg o

/-- The `{ message, details? }` pair errText produces. -/
structure ErrText where
  message : String
  details : Option JValue

/-- errText from mcp.ts: HttpError failures carry parsed body details
(raw text when the body is not JSON, nothing when it is empty). -/
def errText : ToolError → ErrText
  | .httpError st stx body =>
      { message := (ToolError.httpError st stx body).message
        details :=
          if body == "" then none
          else
            match jsonParse body with
            | some v => some v
            | none => some (.str body) }
  | .error m => { message := m, details := none }

/-- A content block of a Result Envelope. -/
inductive ContentBlock where
  | text (s : String)
deriving DecidableEq

/-- The Result Envelope returned over the tools/call boundary. -/
structure Envelope where
  content : List ContentBlock
  isError : Bool
deriving DecidableEq

/-- The JSON object the catch branch renders: `{ error, details? }` with an
undefined `details` dropped by JSON.stringify. -/
def errJson (et : ErrText) : JValue :=
  .obj ([("error", .str et.message)] ++
    (match et.details with
     | some d => [("details", d)]
     | none => []))

/-- The CallToolRequestSchema handler installed by createMcpServer: every
invocation is rendered as exactly one envelope; thrown failures are caught
and rendered with isError set. `args` is `req.params.arguments`, defaulted
to the empty object. -/
def handleCallToolRequest (name : String) (args : Option Args) (cfg : McpConfig)
    (o : FetchOracle) : Envelope :=
  match callTool name (args.getD []) cfg o with
  | (.ok v, _) =>
      { content := [.text (match v with | .str s => s | w => jsonText w)], isError := false }
  | (.error e, _) =>
      { content := [.text (jsonText (errJson (errText e)))], isError := true }

/-! Model of NextJsSseTransport from src/src/index.ts. The mutable fields
are `_writer` (the duplex sink: `some log` holds the payloads written so
far, `none` means never acquired or already released) and `_messageHandler`
(the inbound sink the protocol runtime installs; it may itself throw). -/

/-- The state of one NextJsSseTransport instance. -/
structure NextJsSseTransport where
  writer : Option (List String)
  messageHandler : Option (JValue → Except String Unit)

namespace NextJsSseTransport

/-- The two guard failures the transport throws, with their source messages. -/
inductive Err where
  | notInitialized
  | channelClosed
deriving DecidableEq

def Err.message : Err → String
  | .notInitialized => "Transport not initialized with a response stream writer"
  | .channelClosed => "Transport not active or writer closed"

/-- start(): a no-op that throws unless the writer is already attached. -/
def start (t : NextJsSseTransport) : Except Err Unit :=
  match t.writer with
  | none => .error .notInitialized
  | some _ => .ok ()

/-- The SSE frame send() writes: `event: message\ndata: <json>\n\n`. -/
def sendPayload (m : JValue) : String :=
  "event: message\ndata: " ++ jsonStringify m ++ "\n\n"

/-- send(message): throws when the writer is absent or released, otherwise
appends one framed event to the sink. -/
def send (t : NextJsSseTransport) (m : JValue) : Except Err NextJsSseTransport :=
  match t.writer with
  | none => .error .channelClosed
  | some log => .ok { t with writer := some (log ++ [sendPayload m]) }

/-- The SSE frame sendEndpoint() writes: `event: endpoint\ndata: <addr>\n\n`. -/
def endpointPayload (endpoint : String) : String :=
  "event: endpoint\ndata: " ++ endpoint ++ "\n\n"

/-- sendEndpoint(endpoint): same guard as send(). -/
def sendEndpoint (t : NextJsSseTransport) (endpoint : String) : Except Err NextJsSseTransport :=
  match t.writer with
  | none => .error .channelClosed
  | some log => .ok { t with writer := some (log ++ [endpointPayload endpoint]) }

/-- close(): releases the writer when present; the Bool records whether this
call performed a release (`writer.close()` ran). Never throws. -/
def close (t : NextJsSseTransport) : NextJsSseTransport × Bool :=
  match t.writer with
  | some _ => ({ t with writer := none }, true)
  | none => (t, false)

/-- initResponseStream(): acquires a fresh writer. -/
def initResponseStream (t : NextJsSseTransport) : NextJsSseTransport :=
  { t with writer := some [] }

/-- handlePostMessage(message): forwards to the installed handler when there
is one, silently drops the message otherwise. -/
def handlePostMessage (t : NextJsSseTransport) (m : JValue) : Except String Unit :=
  match t.messageHandler with
  | some h => h m
  | none => .ok ()

end NextJsSseTransport

/-! Model of the session directory (`activeTransports`) and the
POST /api/mcp route of src/unnamed/part_000 (the standalone Express MCP
server; src/api/route.ts's POST has the same status behaviour). -/

/-- The process-wide `Map<string, NextJsSseTransport>`. -/
abbrev Dir := List (String × NextJsSseTransport)

/-- The operations the channel lifecycle performs on the directory:
`register` at channel open (`activeTransports.set`), `remove` at channel
close (`activeTransports.delete`). -/
inductive DirOp where
  | register (id : String) (t : NextJsSseTransport)
  | remove (id : String)

def DirOp.apply : DirOp → Dir → Dir
  | .register id t, d => mapSet d id t
  | .remove id, d => mapDelete d id

def applyOps (ops : List DirOp) (d : Dir) : Dir :=
  ops.foldl (fun d op => op.apply d) d

/-- Whether an operation registers the given id. -/
def DirOp.registersId : DirOp → String → Bool
  | .register id _, k => id == k
  | .remove _, _ => false

/-- The authentication collaborator: header value to user id, or a thrown
failure (invalid or expired key). -/
def AuthOracle : Type := String → Except String String

/-- app.post("/api/mcp") from src/unnamed/part_000, as (status, body text):
missing auth header 401; then inside try: authenticate (a throw is caught
as 500), require a session id (400), resolve it (404), hand the message to
the transport (a throw from the installed handler is caught as 500),
202 on success. Empty-string header and session id are falsy in JS and
behave as missing. -/
def postMcp (authHeader : Option String) (auth : AuthOracle) (sessionId : Option String)
    (dir : Dir) (msg : JValue) : Nat × String :=
  match authHeader with
  | none => (401, "Unauthorized")
  | some h =>
    if h == "" then (401, "Unauthorized")
    else
      match auth h with
      | .error _ => (500, "Internal Error")
      | .ok _ =>
        match sessionId with
        | none => (400, "Missing sessionId")
        | some sid =>
          if sid == "" then (400, "Missing sessionId")
          else
            match mapGet dir sid with
            | none => (404, "Session not found")
            | some t =>
              match NextJsSseTransport.handlePostMessage t msg with
              | .ok _ => (202, "Accepted")
              | .error _ => (500, "Internal Error")

/-! Model of the create_transcript tool handler from src/src/server.ts:
video-id extraction (the three URL regexes and the 11-character id check)
and the handler's control flow over the user_transcripts table. The
collaborators that live outside src (normalizeLanguageTag,
getUserPreferredLanguage, getVideoTitle, fetchCaptionsWithRetry) and the
Supabase row results are oracle fields; the `List DbOp` output is the trace
of user_transcripts reads/inserts/updates the handler performs. -/

/-- The character class [a-zA-Z0-9_-]. -/
def isVideoIdChar (c : Char) : Bool :=
  c.isAlpha || c.isDigit || c == '_' || c == '-'

/-- The final guard `/^[a-zA-Z0-9_-]\x7b11\x7d$/.test(videoId)`. -/
def isValidVideoId (s : String) : Bool :=
  s.length == 11 && s.data.all isVideoIdChar

/-- Try one alternative at the current position: the literal prefix followed
by exactly 11 id characters (the captured group). -/
def captureAt (pre : List Char) (s : List Char) : Option (List Char) :=
  match stripPrefixChars pre s with
  | none => none
  | some rest =>
    let cand := rest.take 11
    if cand.length == 11 && cand.all isVideoIdChar then some cand else none

/-- Try each alternative of one pattern at the current position, in order. -/
def tryAlternatives (alts : List (List Char)) (s : List Char) : Option (List Char) :=
  match alts with
  | [] => none
  | a :: rest =>
    match captureAt a s with
    | some c => some c
    | none => tryAlternatives rest s

/-- Leftmost match of an unanchored pattern: scan positions left to right. -/
def searchCapture (alts : List (List Char)) : List Char → Option (List Char)
  | [] => none
  | c :: cs =>
    match tryAlternatives alts (c :: cs) with
    | some r => some r
    | none => searchCapture alts cs

/-- First regex: `(?:youtube\.com\/watch\?v=|youtu\.be\/)([a-zA-Z0-9_-]\x7b11\x7d)`. -/
def pattern1Alts : List (List Char) := ["youtube.com/watch?v=".data, "youtu.be/".data]

/-- Second regex: `youtube\.com\/embed\/(...)`. -/
def pattern2Alts : List (List Char) := ["youtube.com/embed/".data]

/-- Third regex: `youtube\.com\/v\/(...)`. -/
def pattern3Alts : List (List Char) := ["youtube.com/v/".data]

/-- The for-loop over the three patterns: capture of the first that matches. -/
def patternCapture (url : String) : Option (List Char) :=
  match searchCapture pattern1Alts url.data with
  | some c => some c
  | none =>
    match searchCapture pattern2Alts url.data with
    | some c => some c
    | none => searchCapture pattern3Alts url.data

/-- `let videoId = video_url` then overwrite with the first capture. -/
def extractVideoId (url : String) : String :=
  match patternCapture url with
  | some c => String.mk c
  | none => url

/-- What fetchCaptionsWithRetry resolves with. -/
structure CaptionData where
  text : String
  language : String
  source_kind : String
deriving DecidableEq

/-- The columns the existing-transcript check selects. -/
structure ExistingRow where
  id : String
  status : String
  text : String
deriving DecidableEq

/-- A thrown JavaScript value: an Error with a message, or a non-Error value
(whose message renders as "Unknown error"). -/
inductive Thrown where
  | err (msg : String)
  | raw (s : String)
deriving DecidableEq

def Thrown.msg : Thrown → String
  | .err m => m
  | .raw _ => "Unknown error"

/-- One user_transcripts operation the handler performs. -/
inductive DbOp where
  | read (videoId : String)
  | insert (videoId : String)
  | update (rowId : String)
deriving DecidableEq

/-- The handler's collaborators and row results for one invocation. -/
structure CreateEnv where
  normalizeLanguageTag : String → Option String
  preferredLanguage : Except Thrown String
  existing : Option ExistingRow
  videoTitle : Except Thrown (Option String)
  insertResult : Except Thrown String
  captions : Except Thrown CaptionData
  updateError : Option Thrown

/-- `videoTitle || "Unknown"` in the success message. -/
def titleOrUnknown : Option String → String
  | some s => if s == "" then "Unknown" else s
  | none => "Unknown"

/-- The create_transcript handler: extract and validate the video id, then
(under the outer try) determine the language, check for an existing
succeeded transcript, fetch the title, insert a processing row, fetch
captions and update the row; caption/update failures are caught by the
inner catch, which marks the row failed. -/
def create_transcript (video_url : String) (language : Option String) (env : CreateEnv) :
    Envelope × List DbOp :=
  let videoId := extractVideoId video_url
  if !(isValidVideoId videoId) then
    ({ content := [.text "Invalid YouTube URL or ID."], isError := true }, [])
  else
    let effLang0 : Option String :=
      match language with
      | some l => env.normalizeLanguageTag l
      | none => none
    let withLang : Except Thrown (Option String) :=
      match effLang0 with
      | some l => .ok (some l)
      | none =>
        match env.preferredLanguage with
        | .error t => .error t
        | .ok pref => .ok (env.normalizeLanguageTag pref)
    match withLang with
    | .error t =>
        ({ content := [.text ("Failed to create transcript: " ++ t.msg)], isError := true }, [])
    | .ok _effectiveLanguage =>
      let ops0 := [DbOp.read videoId]
      let hit : Option Envelope :=
        match env.existing with
        | some ex =>
          if ex.status == "succeeded" && !(ex.text == "") then
            some { content := [.text ("Transcript for video " ++ videoId ++ " already exists. ID: " ++ ex.id)]
                   isError := false }
          else none
        | none => none
      match hit with
      | some envlp => (envlp, ops0)
      | none =>
        match env.videoTitle with
        | .error t =>
            ({ content := [.text ("Failed to create transcript: " ++ t.msg)], isError := true }, ops0)
        | .ok videoTitle =>
          match env.insertResult with
          | .error t =>
              ({ content := [.text ("Failed to create transcript: " ++ t.msg)], isError := true },
               ops0 ++ [.insert videoId])
          | .ok newId =>
            match env.captions with
            | .error t =>
                ({ content := [.text ("Failed to fetch captions: " ++ t.msg)], isError := true },
                 ops0 ++ [.insert videoId, .update newId])
            | .ok _cap =>
              match env.updateError with
              | some t =>
                  ({ content := [.text ("Failed to fetch captions: " ++ t.msg)], isError := true },
                   ops0 ++ [.insert videoId, .update newId, .update newId])
              | none =>
                  ({ content := [.text ("Transcript created successfully. ID: " ++ newId ++ ". Title: " ++ titleOrUnknown videoTitle)]
                     isError := false },
                   ops0 ++ [.insert videoId, .update newId])

/-! Model of src/src/transcript-formatter.ts. Segment times are rationals
(JS numbers) in milliseconds; the segment field named `end` in the source is
`endTime` here because `end` is a Lean keyword. -/

structure TranscriptSegment where
  text : String
  start : Option ℚ
  endTime : Option ℚ
  duration : Option ℚ
deriving DecidableEq

structure ExportOptions where
  videoId : String
  videoTitle : Option String
  segments : List TranscriptSegment
  plainText : Option String
deriving DecidableEq

inductive ExportFormat where
  | markdown
  | srt
  | vtt
  | plain
deriving DecidableEq

/-- JavaScript truncating division on integers (the sign-of-dividend `%`). -/
def jsIntMod (a b : ℤ) : ℤ := a - b * Int.tdiv a b

/-- JavaScript `%` on numbers: `a - b * trunc(a / b)`. -/
def truncQ (q : ℚ) : ℤ := if 0 ≤ q then ⌊q⌋ else ⌈q⌉

def jsMod (a b : ℚ) : ℚ := a - b * (truncQ (a / b) : ℚ)

def srtHours (seconds : ℚ) : ℤ := ⌊seconds / 3600⌋
def srtMinutes (seconds : ℚ) : ℤ := ⌊jsMod seconds 3600 / 60⌋
def srtSeconds (seconds : ℚ) : ℤ := ⌊jsMod seconds 60⌋
def srtMillis (seconds : ℚ) : ℤ := ⌊jsMod seconds 1 * 1000⌋

/-- formatSRT: `HH:MM:SS,mmm` from a time in seconds. -/
def formatSRT (seconds : ℚ) : String :=
  padStart (toString (srtHours seconds)) 2 '0' ++ ":" ++
  padStart (toString (srtMinutes seconds)) 2 '0' ++ ":" ++
  padStart (toString (srtSeconds seconds)) 2 '0' ++ "," ++
  padStart (toString (srtMillis seconds)) 3 '0'

/-- formatVTT: `HH:MM:SS.mmm` from a time in seconds. -/
def formatVTT (seconds : ℚ) : String :=
  padStart (toString (srtHours seconds)) 2 '0' ++ ":" ++
  padStart (toString (srtMinutes seconds)) 2 '0' ++ ":" ++
  padStart (toString (srtSeconds seconds)) 2 '0' ++ "." ++
  padStart (toString (srtMillis seconds)) 3 '0'

/-- formatTime: `M:SS` from a time in milliseconds. -/
def formatTime (ms : ℚ) : String :=
  let totalSeconds : ℤ := ⌊ms / 1000⌋
  let mins : ℤ := ⌊(totalSeconds : ℚ) / 60⌋
  let secs : ℤ := jsIntMod totalSeconds 60
  toString mins ++ ":" ++ padStart (toString secs) 2 '0'

/-- `words.toLocaleString()`: decimal digits grouped in threes by commas. -/
def groupThousands (n : ℕ) : String :=
  let ds := (toString n).data.reverse
  String.mk ((ds.enum.map (fun p =>
    if p.1 ≠ 0 ∧ p.1 % 3 = 0 then [',', p.2] else [p.2])).flatten.reverse)

/-- `(text).split(/\s+/).filter(Boolean).length`. -/
def countWords (s : String) : ℕ :=
  ((s.split (fun c => c.isWhitespace)).filter (fun w => !(w == ""))).length

/-- The start time an SRT/VTT cue uses: `(seg.start ?? 0) / 1000` seconds. -/
def cueStartSec (seg : TranscriptSegment) : ℚ := seg.start.getD 0 / 1000

/-- The end time an SRT/VTT cue uses: `(seg.end ?? seg.start ?? 0) / 1000`. -/
def cueEndSec (seg : TranscriptSegment) : ℚ := ((seg.endTime <|> seg.start).getD 0) / 1000

/-- One SRT cue: index line (1-based), timestamp line, text. -/
def srtCue (i : ℕ) (seg : TranscriptSegment) : String :=
  toString (i + 1) ++ "\n" ++ formatSRT (cueStartSec seg) ++ " --> " ++
  formatSRT (cueEndSec seg) ++ "\n" ++ seg.text

def srtCues (segs : List TranscriptSegment) : List String :=
  segs.enum.map (fun p => srtCue p.1 p.2)

/-- One VTT cue: timestamp line and text (no index line). -/
def vttCue (seg : TranscriptSegment) : String :=
  formatVTT (cueStartSec seg) ++ " --> " ++ formatVTT (cueEndSec seg) ++ "\n" ++ seg.text

/-- The markdown branch of exportTranscript. -/
def exportMarkdown (o : ExportOptions) : String :=
  let title : String :=
    match o.videoTitle with
    | some t => if t == "" then "Transcript for " ++ o.videoId else t
    | none => "Transcript for " ++ o.videoId
  let duration : ℤ :=
    match o.segments.getLast? with
    | some lastSeg =>
      match lastSeg.endTime with
      | some e => if e == 0 then 0 else ⌊(lastSeg.endTime.getD 0) / 1000⌋
      | none => 0
    | none => 0
  let words := countWords
    (match o.plainText with
     | some p => p
     | none => String.intercalate " " (o.segments.map (fun s => s.text)))
  "# " ++ title ++ "\n\n" ++
  "**Video ID:** " ++ o.videoId ++ "\n" ++
  "**Duration:** " ++ toString (⌊(duration : ℚ) / 60⌋) ++ ":" ++
    padStart (toString (jsIntMod duration 60)) 2 '0' ++ "\n" ++
  "**Words:** " ++ groupThousands words ++ "\n\n" ++
  "## Transcript\n\n" ++
  String.intercalate "\n\n" (o.segments.map (fun seg =>
    "**[" ++ formatTime (seg.start.getD 0) ++ "]** " ++ seg.text))

/-- exportTranscript from src/src/transcript-formatter.ts. -/
def exportTranscript (o : ExportOptions) : ExportFormat → String
  | .plain =>
    (match o.plainText with
     | some p => p
     | none => String.intercalate "\n\n" (o.segments.map (fun s => s.text)))
  | .srt => String.intercalate "\n\n" (srtCues o.segments)
  | .vtt => "WEBVTT\n\n" ++ String.intercalate "\n\n" (o.segments.map vttCue)
  | .markdown => exportMarkdown o

/-! Concrete fixtures used to instantiate the theorems below. -/

/-- A fetch collaborator that always succeeds with a small JSON body. -/
def okOracle : FetchOracle :=
  fun _ => .ok { status := 200, statusText := "OK", bodyText := "\x7b\"ok\":true\x7d" }

/-- The structured error body of end-to-end scenario C in the spec. -/
def rateLimitedBody : String := "\x7b\"error\":\"rate limited\"\x7d"

/-- A fetch collaborator that always fails with 503 and a structured body. -/
def badOracle : FetchOracle :=
  fun _ => .ok { status := 503, statusText := "Service Unavailable", bodyText := rateLimitedBody }

/-- An authenticator that accepts every key. -/
def goodAuth : AuthOracle := fun _ => .ok "user-1"

/-- An authenticator that rejects every key (authenticateApiKey throws). -/
def badAuth : AuthOracle := fun _ => .error "Invalid API key"

/-- A transport whose stream writer is attached and no inbound handler yet. -/
def readyTransport : NextJsSseTransport := { writer := some [], messageHandler := none }

/-- A transport with no writer and no inbound handler. -/
def closedTransport : NextJsSseTransport := { writer := none, messageHandler := none }

/-- An inbound handler that accepts every message. -/
def demoHandler : JValue → Except String Unit := fun _ => .ok ()

/-- A transport (writer already released) with an installed inbound handler. -/
def installedTransport : NextJsSseTransport := { writer := none, messageHandler := some demoHandler }

/-- A transport whose installed inbound handler throws. -/
def throwingTransport : NextJsSseTransport :=
  { writer := some [], messageHandler := some (fun _ => .error "boom") }

/-- Collaborator results for a create_transcript invocation. -/
def demoCreateEnv : CreateEnv :=
  { normalizeLanguageTag := fun _ => none
    preferredLanguage := .ok "en"
    existing := none
    videoTitle := .ok none
    insertResult := .ok "row-1"
    captions := .error (.err "no captions")
    updateError := none }

def demoSeg0 : TranscriptSegment :=
  { text := "hello", start := some 0, endTime := some 1500, duration := none }

def demoSeg1 : TranscriptSegment :=
  { text := "world", start := some 1500, endTime := some 3000, duration := none }

def demoExportOpts : ExportOptions :=
  { videoId := "abcdefghijk", videoTitle := some "T"
    segments := [demoSeg0, demoSeg1], plainText := some "hello world" }

/-! Helper lemmas about the JavaScript-Map model. -/

theorem mapGet_set_self {α : Type} (d : List (String × α)) (k : String) (v : α) :
    mapGet (mapSet d k v) k = some v := by
  induction d with
  | nil => simp [mapSet, mapGet]
  | cons p rest ih =>
    obtain ⟨k', w⟩ := p
    by_cases h : k' == k
    · simp [mapSet, h, mapGet]
    · simp [mapSet, h, mapGet, ih]

theorem mapGet_set_ne {α : Type} (d : List (String × α)) (k k' : String) (v : α)
    (h : (k' == k) = false) : mapGet (mapSet d k' v) k = mapGet d k := by
  induction d with
  | nil => simp [mapSet, mapGet, h]
  | cons p rest ih =>
    obtain ⟨k0, w⟩ := p
    by_cases h0 : k0 == k'
    · have hk : (k0 == k) = false := by
        have e1 : k0 = k' := by simpa using h0
        simpa [e1] using h
      simp [mapSet, h0, mapGet, h, hk]
    · simp [mapSet, h0, mapGet, ih]

theorem mapGet_delete_self {α : Type} (d : List (String × α)) (k : String) :
    mapGet (mapDelete d k) k = none := by
  induction d with
  | nil => simp [mapDelete, mapGet]
  | cons p rest ih =>
    obtain ⟨k0, w⟩ := p
    by_cases h0 : k0 == k
    · simpa [mapDelete, h0, mapGet] using ih
    · simpa [mapDelete, h0, mapGet] using ih

theorem mapGet_delete_ne {α : Type} (d : List (String × α)) (k k' : String)
    (h : (k' == k) = false) : mapGet (mapDelete d k') k = mapGet d k := by
  induction d with
  | nil => simp [mapDelete, mapGet]
  | cons p rest ih =>
    obtain ⟨k0, w⟩ := p
    by_cases h0 : k0 == k'
    · have hk : (k0 == k) = false := by
        have e1 : k0 = k' := by simpa using h0
        simpa [e1] using h
      simpa [mapDelete, h0, mapGet, hk] using ih
    · simp only [mapDelete, List.filter, h0, Bool.not_false, mapGet]
      by_cases hk : k0 == k
      · simp [hk]
      · simpa [hk, mapDelete] using ih

theorem mapGet_applyOps_none (ops : List DirOp) (d : Dir) (id : String)
    (hd : mapGet d id = none) (hops : ∀ op ∈ ops, op.registersId id = false) :
    mapGet (applyOps ops d) id = none := by
  induction ops generalizing d with
  | nil => simpa [applyOps] using hd
  | cons op rest ih =>
    have hstep : mapGet (op.apply d) id = none := by
      cases op with
      | register oid t =>
        have hne : (oid == id) = false := by
          simpa [DirOp.registersId] using hops _ (List.mem_cons_self _ _)
        simpa [DirOp.apply, mapGet_set_ne d id oid t hne] using hd
      | remove oid =>
        by_cases h0 : oid == id
        · have e1 : oid = id := by simpa using h0
          simp [DirOp.apply, e1, mapGet_delete_self]
        · have h0' : (oid == id) = false := by simpa using h0
          simpa [DirOp.apply, mapGet_delete_ne d id oid h0'] using hd
    have : applyOps (op :: rest) d = applyOps rest (op.apply d) := rfl
    rw [this]
    exact ih _ hstep (fun op' hop' => hops _ (List.mem_cons_of_mem _ hop'))

/-- Claim C1, counterexample. The claim says every argument object violating
a tool's declared inputSchema makes callTool fail with InvalidArguments
before the handler runs, the handler never being called. At the concrete
input `transcribe_v2` with the empty argument object (which violates the
schema: the required field `video` is missing), callTool runs the handler —
it issues its downstream POST (the request trace has length 1) and returns
the downstream response as a success; no InvalidArguments failure occurs. -/
theorem claim_C1_counterexample :
    satisfiesSchema transcribe_v2.schema.inputSchema (.obj []) = false ∧
    (callTool "transcribe_v2" [] testConfig okOracle).2.length = 1 ∧
    (callTool "transcribe_v2" [] testConfig okOracle).1 = .ok (.obj [("ok", .bool true)]) := by
  refine ⟨by decide, rfl, rfl⟩

/-- Claim C1, amended: callTool performs no input-schema validation at all.
For every registered tool, every argument object (schema-conforming or not)
is passed directly to the tool's handler; callTool fails before any handler
only for names absent from the registry. -/
theorem claim_C1_amended (name : String) (tool : Tool)
    (hname : mapGet toolRegistry name = some tool)
    (args : Args) (cfg : McpConfig) (o : FetchOracle) :
    callTool name args cfg o = tool.handler args cfg o := by
  unfold callTool
  rw [hname]

/-- Witness for claim C1 (amended): the registered tool transcribe_v2 with
the schema-violating empty argument object. -/
theorem claim_C1_amended_witness :
    mapGet toolRegistry "transcribe_v2" = some transcribe_v2 ∧
    callTool "transcribe_v2" [] testConfig okOracle =
      transcribe_v2.handler [] testConfig okOracle :=
  ⟨rfl, claim_C1_amended "transcribe_v2" transcribe_v2 rfl [] testConfig okOracle⟩

/-- Claim C2: the tools/call dispatch boundary is a total function producing
exactly one envelope (a single text content block) per invocation; when the
underlying callTool throws, the envelope has isError set and renders the
failure's message with its structured details; when it succeeds, the
envelope is the success rendering; and an HttpError whose body is parseable
JSON contributes that parsed body as the details. -/
theorem claim_C2_envelope (name : String) (args : Option Args) (cfg : McpConfig)
    (o : FetchOracle) :
    (handleCallToolRequest name args cfg o).content.length = 1 ∧
    (∀ e, (callTool name (args.getD []) cfg o).1 = .error e →
      handleCallToolRequest name args cfg o =
        { content := [.text (jsonText (errJson (errText e)))], isError := true }) ∧
    (∀ v, (callTool name (args.getD []) cfg o).1 = .ok v →
      handleCallToolRequest name args cfg o =
        { content := [.text (match v with | .str s => s | w => jsonText w)], isError := false }) ∧
    (∀ st stx body j, body ≠ "" → jsonParse body = some j →
      errText (.httpError st stx body) =
        { message := "HTTP " ++ toString st ++ " " ++ stx, details := some j }) := by
  rcases h : callTool name (args.getD []) cfg o with ⟨res, tr⟩
  refine ⟨?_, ?_, ?_, ?_⟩
  · cases res <;> simp [handleCallToolRequest, h]
  · intro e he
    simp only at he
    subst he
    simp [handleCallToolRequest, h]
  · intro v hv
    simp only at hv
    subst hv
    simp [handleCallToolRequest, h]
  · intro st stx body j hbody hparse
    have hb : (body == "") = false := by simpa using hbody
    simp [errText, ToolError.message, hb, hparse]

/-- Witness for claim C2: transcribe_v2 against a downstream that fails with
503 and the structured body of scenario C; the boundary renders one isError
envelope whose details are the parsed body, and no exception escapes. -/
theorem claim_C2_envelope_witness :
    (callTool "transcribe_v2" [] testConfig badOracle).1 =
      .error (.httpError 503 "Service Unavailable" rateLimitedBody) ∧
    rateLimitedBody ≠ "" ∧
    jsonParse rateLimitedBody = some (.obj [("error", .str "rate limited")]) ∧
    handleCallToolRequest "transcribe_v2" (some []) testConfig badOracle =
      { content := [.text (jsonText (errJson (errText
          (.httpError 503 "Service Unavailable" rateLimitedBody))))], isError := true } ∧
    errText (.httpError 503 "Service Unavailable" rateLimitedBody) =
      { message := "HTTP 503 Service Unavailable"
        details := some (.obj [("error", .str "rate limited")]) } ∧
    handleCallToolRequest "transcribe_v2" (some []) testConfig badOracle =
      { content := [.text "\x7b\n  \"error\": \"HTTP 503 Service Unavailable\",\n  \"details\": \x7b\n    \"error\": \"rate limited\"\n  \x7d\n\x7d"]
        isError := true } := by
  have h2 := (claim_C2_envelope "transcribe_v2" (some []) testConfig badOracle).2.1
    (.httpError 503 "Service Unavailable" rateLimitedBody) rfl
  have h4 := (claim_C2_envelope "transcribe_v2" (some []) testConfig badOracle).2.2.2
    503 "Service Unavailable" rateLimitedBody (.obj [("error", .str "rate limited")])
    (by decide) rfl
  exact ⟨rfl, by decide, rfl, h2, by simpa using h4, by decide⟩

/-- Claim C3, counterexample. The claim says the message endpoint answers
401 whenever the bearer credential is absent or invalid. With a present but
invalid credential (authenticateApiKey throws), even with a valid session
id bound to a live transport, the handler's catch block answers 500, not
401. -/
theorem claim_C3_counterexample :
    postMcp (some "Bearer wrong-key") badAuth (some "s1") [("s1", readyTransport)] (.obj []) =
      (500, "Internal Error") ∧
    (postMcp (some "Bearer wrong-key") badAuth (some "s1") [("s1", readyTransport)] (.obj [])).1 ≠ 401 :=
  ⟨rfl, by decide⟩

/-- Claim C3, amended: the stateless message endpoint answers 202 on
successful hand-off, 400 when the session id is missing (or empty), 404
when the session id resolves to no registered transport, 401 when the
credential is absent (or empty) — but a present invalid credential is
caught by the catch-all and answered 500, as is a throw from the installed
inbound handler. -/
theorem claim_C3_amended (authHeader : Option String) (auth : AuthOracle)
    (sessionId : Option String) (dir : Dir) (msg : JValue) :
    (authHeader = none ∨ authHeader = some "" →
      postMcp authHeader auth sessionId dir msg = (401, "Unauthorized")) ∧
    (∀ h, authHeader = some h → h ≠ "" → ∀ e, auth h = .error e →
      postMcp authHeader auth sessionId dir msg = (500, "Internal Error")) ∧
    (∀ h u, authHeader = some h → h ≠ "" → auth h = .ok u →
      (sessionId = none ∨ sessionId = some "") →
      postMcp authHeader auth sessionId dir msg = (400, "Missing sessionId")) ∧
    (∀ h u sid, authHeader = some h → h ≠ "" → auth h = .ok u →
      sessionId = some sid → sid ≠ "" → mapGet dir sid = none →
      postMcp authHeader auth sessionId dir msg = (404, "Session not found")) ∧
    (∀ h u sid t, authHeader = some h → h ≠ "" → auth h = .ok u →
      sessionId = some sid → sid ≠ "" → mapGet dir sid = some t →
      NextJsSseTransport.handlePostMessage t msg = .ok () →
      postMcp authHeader auth sessionId dir msg = (202, "Accepted")) ∧
    (∀ h u sid t e, authHeader = some h → h ≠ "" → auth h = .ok u →
      sessionId = some sid → sid ≠ "" → mapGet dir sid = some t →
      NextJsSseTransport.handlePostMessage t msg = .error e →
      postMcp authHeader auth sessionId dir msg = (500, "Internal Error")) := by
  refine ⟨?_, ?_, ?_, ?_, ?_, ?_⟩
  · rintro (rfl | rfl) <;> simp [postMcp]
  · rintro h rfl hne e hauth
    have hb : (h == "") = false := by simpa using hne
    simp [postMcp, hb, hauth]
  · rintro h u rfl hne hauth (rfl | rfl) <;>
      · have hb : (h == "") = false := by simpa using hne
        simp [postMcp, hb, hauth]
  · rintro h u sid rfl hne hauth rfl hsne hdir
    have hb : (h == "") = false := by simpa using hne
    have hsb : (sid == "") = false := by simpa using hsne
    simp [postMcp, hb, hauth, hsb, hdir]
  · rintro h u sid t rfl hne hauth rfl hsne hdir hmsg
    have hb : (h == "") = false := by simpa using hne
    have hsb : (sid == "") = false := by simpa using hsne
    simp [postMcp, hb, hauth, hsb, hdir, hmsg]
  · rintro h u sid t e rfl hne hauth rfl hsne hdir hmsg
    have hb : (h == "") = false := by simpa using hne
    have hsb : (sid == "") = false := by simpa using hsne
    simp [postMcp, hb, hauth, hsb, hdir, hmsg]

/-- Witness for claim C3 (amended): each status at a concrete request. -/
theorem claim_C3_amended_witness :
    postMcp none goodAuth none [] (.obj []) = (401, "Unauthorized") ∧
    postMcp (some "Bearer k") badAuth (some "s1") [] (.obj []) = (500, "Internal Error") ∧
    postMcp (some "Bearer k") goodAuth none [] (.obj []) = (400, "Missing sessionId") ∧
    postMcp (some "Bearer k") goodAuth (some "s1") [] (.obj []) = (404, "Session not found") ∧
    postMcp (some "Bearer k") goodAuth (some "s1") [("s1", readyTransport)] (.obj []) =
      (202, "Accepted") ∧
    postMcp (some "Bearer k") goodAuth (some "s1") [("s1", throwingTransport)] (.obj []) =
      (500, "Internal Error") :=
  ⟨(claim_C3_amended none goodAuth none [] (.obj [])).1 (Or.inl rfl),
   (claim_C3_amended (some "Bearer k") badAuth (some "s1") [] (.obj [])).2.1
     "Bearer k" rfl (by decide) "Invalid API key" rfl,
   (claim_C3_amended (some "Bearer k") goodAuth none [] (.obj [])).2.2.1
     "Bearer k" "user-1" rfl (by decide) rfl (Or.inl rfl),
   (claim_C3_amended (some "Bearer k") goodAuth (some "s1") [] (.obj [])).2.2.2.1
     "Bearer k" "user-1" "s1" rfl (by decide) rfl rfl (by decide) rfl,
   (claim_C3_amended (some "Bearer k") goodAuth (some "s1") [("s1", readyTransport)]
     (.obj [])).2.2.2.2.1 "Bearer k" "user-1" "s1" readyTransport rfl (by decide) rfl rfl
     (by decide) rfl rfl,
   (claim_C3_amended (some "Bearer k") goodAuth (some "s1") [("s1", throwingTransport)]
     (.obj [])).2.2.2.2.2 "Bearer k" "user-1" "s1" throwingTransport "boom" rfl (by decide)
     rfl rfl (by decide) rfl rfl⟩

/-- Claim C4: the session directory behaves as a map keyed by session id —
registering (id, t) then resolving id returns that same t; resolving after
the channel-close removal of id yields not-found; and resolving an id not
registered by any operation of a run from the empty directory yields
not-found. -/
theorem claim_C4_directory (d : Dir) (id : String) (t : NextJsSseTransport)
    (ops : List DirOp) (hops : ∀ op ∈ ops, op.registersId id = false) :
    mapGet (mapSet d id t) id = some t ∧
    mapGet (mapDelete d id) id = none ∧
    mapGet (applyOps ops []) id = none :=
  ⟨mapGet_set_self d id t, mapGet_delete_self d id,
   mapGet_applyOps_none ops [] id rfl hops⟩

/-- Witness for claim C4 at concrete directories and a run that registers
only a different session id. -/
theorem claim_C4_directory_witness :
    (∀ op ∈ [DirOp.register "other" readyTransport, DirOp.remove "s1"],
      op.registersId "s1" = false) ∧
    (mapGet (mapSet [] "s1" readyTransport) "s1" = some readyTransport ∧
     mapGet (mapDelete [("s1", readyTransport)] "s1") "s1" = none ∧
     mapGet (applyOps [DirOp.register "other" readyTransport, DirOp.remove "s1"] []) "s1" = none) :=
  ⟨by decide,
   ⟨(claim_C4_directory [] "s1" readyTransport
       [DirOp.register "other" readyTransport, DirOp.remove "s1"] (by decide)).1,
    (claim_C4_directory [("s1", readyTransport)] "s1" readyTransport
       [DirOp.register "other" readyTransport, DirOp.remove "s1"] (by decide)).2.1,
    (claim_C4_directory [] "s1" readyTransport
       [DirOp.register "other" readyTransport, DirOp.remove "s1"] (by decide)).2.2⟩⟩

/-- Claim C5: for a name absent from the registry, callTool throws an error
whose message is "Unknown tool: " followed by the name (so the message
contains the tool name), no handler runs (the request trace is empty), and
the dispatch boundary renders an isError envelope carrying that message. -/
theorem claim_C5_unknown_tool (name : String) (hname : mapGet toolRegistry name = none)
    (args : Args) (cfg : McpConfig) (o : FetchOracle) :
    (callTool name args cfg o).1 = .error (.error ("Unknown tool: " ++ name)) ∧
    (callTool name args cfg o).2 = [] ∧
    handleCallToolRequest name (some args) cfg o =
      { content := [.text (jsonText (.obj [("error", .str ("Unknown tool: " ++ name))]))]
        isError := true } ∧
    (∃ p, "Unknown tool: " ++ name = p ++ name) := by
  refine ⟨?_, ?_, ?_, ⟨"Unknown tool: ", rfl⟩⟩ <;>
    simp [callTool, handleCallToolRequest, hname, errText, errJson]

/-- Witness for claim C5 at the unknown name used by the repository's own
test ("unknown_tool"), with the envelope text evaluated. -/
theorem claim_C5_unknown_tool_witness :
    mapGet toolRegistry "unknown_tool" = none ∧
    (callTool "unknown_tool" [] testConfig okOracle).1 =
      .error (.error "Unknown tool: unknown_tool") ∧
    handleCallToolRequest "unknown_tool" (some []) testConfig okOracle =
      { content := [.text "\x7b\n  \"error\": \"Unknown tool: unknown_tool\"\n\x7d"]
        isError := true } := by
  have h := claim_C5_unknown_tool "unknown_tool" rfl [] testConfig okOracle
  exact ⟨rfl, h.1, by rw [h.2.2.1]; decide⟩

/-- Claim C6: start() succeeds exactly when the duplex sink has been
acquired and otherwise fails with the NotInitialized condition, and
send()/sendEndpoint() fail with the ChannelClosed condition whenever the
sink is absent or released — a successful write implies the sink was
present, so nothing is ever written to a released sink. -/
theorem claim_C6_sink_guards (t : NextJsSseTransport) (m : JValue) (a : String) :
    (NextJsSseTransport.start t = .ok () ↔ t.writer.isSome = true) ∧
    (t.writer = none → NextJsSseTransport.start t = .error .notInitialized) ∧
    (t.writer = none → NextJsSseTransport.send t m = .error .channelClosed) ∧
    (t.writer = none → NextJsSseTransport.sendEndpoint t a = .error .channelClosed) ∧
    (∀ t', NextJsSseTransport.send t m = .ok t' → t.writer.isSome = true) ∧
    (∀ t', NextJsSseTransport.sendEndpoint t a = .ok t' → t.writer.isSome = true) := by
  obtain ⟨w, mh⟩ := t
  cases w <;>
    simp [NextJsSseTransport.start, NextJsSseTransport.send, NextJsSseTransport.sendEndpoint]

/-- Witness for claim C6: the guards at a transport whose sink is absent,
and a successful start at a transport whose sink is attached. -/
theorem claim_C6_sink_guards_witness :
    closedTransport.writer = none ∧
    NextJsSseTransport.start closedTransport = .error .notInitialized ∧
    NextJsSseTransport.send closedTransport (.obj []) = .error .channelClosed ∧
    NextJsSseTransport.sendEndpoint closedTransport "/api/mcp?sessionId=s1" =
      .error .channelClosed ∧
    NextJsSseTransport.start readyTransport = .ok () := by
  have h := claim_C6_sink_guards closedTransport (.obj []) "/api/mcp?sessionId=s1"
  exact ⟨rfl, h.2.1 rfl, h.2.2.1 rfl, h.2.2.2.1 rfl,
    (claim_C6_sink_guards readyTransport (.obj []) "/api/mcp?sessionId=s1").1.mpr rfl⟩

/-- Claim C7: close() is idempotent — after any close the sink is released;
closing an already-closed transport is a no-op that raises no error and
performs no second release (the Bool component records whether
writer.close() ran); and the first close on an open transport releases the
sink exactly once. -/
theorem claim_C7_close_idempotent (t : NextJsSseTransport) :
    (NextJsSseTransport.close t).1.writer = none ∧
    NextJsSseTransport.close (NextJsSseTransport.close t).1 =
      ((NextJsSseTransport.close t).1, false) ∧
    (∀ w, t.writer = some w →
      NextJsSseTransport.close t = ({ t with writer := none }, true)) ∧
    (t.writer = none → NextJsSseTransport.close t = (t, false)) := by
  obtain ⟨w, mh⟩ := t
  cases w <;> simp [NextJsSseTransport.close]

/-- Witness for claim C7: closing an open transport once then again. -/
theorem claim_C7_close_idempotent_witness :
    readyTransport.writer = some [] ∧
    NextJsSseTransport.close readyTransport = (closedTransport, true) ∧
    NextJsSseTransport.close closedTransport = (closedTransport, false) := by
  have h := (claim_C7_close_idempotent readyTransport).2.2.1 [] rfl
  exact ⟨rfl, h, (claim_C7_close_idempotent readyTransport).2.1⟩

/-- Claim C8: handlePostMessage is total and best-effort — whenever an
inbound handler has been installed the message is forwarded to it (the call
is exactly the handler applied to the message, in every transport state,
the sink's presence never being consulted), and with no handler installed
the message is silently discarded with no error and no retry (the call
returns unit without any effect). -/
theorem claim_C8_receive_inbound (t : NextJsSseTransport) (m : JValue) :
    (t.messageHandler = none → NextJsSseTransport.handlePostMessage t m = .ok ()) ∧
    (∀ f, t.messageHandler = some f → NextJsSseTransport.handlePostMessage t m = f m) := by
  obtain ⟨w, mh⟩ := t
  cases mh with
  | none => simp [NextJsSseTransport.handlePostMessage]
  | some f0 =>
    refine ⟨by simp, ?_⟩
    intro f hf
    cases Option.some.inj hf
    simp [NextJsSseTransport.handlePostMessage]

/-- Witness for claim C8: a no-handler transport drops the message, and a
transport with writer already released still forwards to its installed
handler. -/
theorem claim_C8_receive_inbound_witness :
    closedTransport.messageHandler = none ∧
    NextJsSseTransport.handlePostMessage closedTransport (.obj []) = .ok () ∧
    installedTransport.messageHandler = some demoHandler ∧
    installedTransport.writer = none ∧
    NextJsSseTransport.handlePostMessage installedTransport (.obj []) = demoHandler (.obj []) :=
  ⟨rfl, (claim_C8_receive_inbound closedTransport (.obj [])).1 rfl, rfl, rfl,
   (claim_C8_receive_inbound installedTransport (.obj [])).2 demoHandler rfl⟩

/-- Claim C9: when no URL pattern matches and the raw input is not itself a
valid 11-character id, create_transcript returns the isError envelope with
message "Invalid YouTube URL or ID." and performs no user_transcripts read,
insert or update — for every collaborator environment, so the stored state
is unchanged and no collaborator is even consulted. -/
theorem claim_C9_invalid_video (url : String) (language : Option String) (env : CreateEnv)
    (h1 : patternCapture url = none) (h2 : isValidVideoId url = false) :
    create_transcript url language env =
      ({ content := [.text "Invalid YouTube URL or ID."], isError := true },
       ([] : List DbOp)) := by
  have hx : extractVideoId url = url := by unfold extractVideoId; rw [h1]
  simp [create_transcript, hx, h2]

/-- Witness for claim C9 at the concrete input "hello" (no pattern match,
not an 11-character id). -/
theorem claim_C9_invalid_video_witness :
    patternCapture "hello" = none ∧
    isValidVideoId "hello" = false ∧
    create_transcript "hello" none demoCreateEnv =
      ({ content := [.text "Invalid YouTube URL or ID."], isError := true },
       ([] : List DbOp)) :=
  ⟨rfl, by decide, claim_C9_invalid_video "hello" none demoCreateEnv rfl (by decide)⟩

/-- JavaScript `x % b` for nonnegative x and positive b lies in [0, b). -/
theorem jsMod_bounds (q b : ℚ) (hq : 0 ≤ q) (hb : 0 < b) :
    0 ≤ jsMod q b ∧ jsMod q b < b := by
  have hqb : 0 ≤ q / b := div_nonneg hq hb.le
  have hfl : ((⌊q / b⌋ : ℚ)) ≤ q / b := Int.floor_le _
  have hlt : q / b < (⌊q / b⌋ : ℚ) + 1 := Int.lt_floor_add_one _
  have hmod : jsMod q b = q - b * (⌊q / b⌋ : ℚ) := by
    unfold jsMod truncQ
    rw [if_pos hqb]
  have hcancel : b * (q / b) = q := by field_simp
  constructor
  · rw [hmod]
    have h1 : b * (⌊q / b⌋ : ℚ) ≤ b * (q / b) := mul_le_mul_of_nonneg_left hfl hb.le
    linarith
  · rw [hmod]
    have h1 : b * (q / b) < b * ((⌊q / b⌋ : ℚ) + 1) := by
      exact mul_lt_mul_of_pos_left hlt hb
    have h2 : b * ((⌊q / b⌋ : ℚ) + 1) = b * (⌊q / b⌋ : ℚ) + b := by ring
    linarith

/-- Claim C10: the srt export is the "\n\n"-intercalation of one cue per
segment, in segment order; there are exactly as many cues as segments; the
i-th cue is the 1-based index line `i+1`, the timestamp line
`formatSRT(start/1000) --> formatSRT(end/1000)` for that segment's start
and end (with the source's ?? defaults), then that segment's text; the vtt
export always begins with "WEBVTT"; and for every nonnegative time the
minute, second and millisecond fields of the timestamp rendering lie in
[0,60), [0,60) and [0,1000), so the timestamp line reads HH:MM:SS,mmm. -/
theorem claim_C10_export_formats (o : ExportOptions) :
    exportTranscript o .srt = String.intercalate "\n\n" (srtCues o.segments) ∧
    (srtCues o.segments).length = o.segments.length ∧
    (∀ i seg, o.segments.get? i = some seg →
      (srtCues o.segments).get? i =
        some (toString (i + 1) ++ "\n" ++ formatSRT (cueStartSec seg) ++ " --> " ++
              formatSRT (cueEndSec seg) ++ "\n" ++ seg.text)) ∧
    (∃ rest, exportTranscript o .vtt = "WEBVTT" ++ rest) ∧
    (∀ q : ℚ, 0 ≤ q →
      (0 ≤ srtMinutes q ∧ srtMinutes q < 60) ∧
      (0 ≤ srtSeconds q ∧ srtSeconds q < 60) ∧
      (0 ≤ srtMillis q ∧ srtMillis q < 1000)) := by
  refine ⟨rfl, ?_, ?_, ?_, ?_⟩
  · simp [srtCues, List.enum_length]
  · intro i seg hseg
    simp only [srtCues, List.getElem?_map, List.getElem?_enum, List.get?_eq_getElem?, srtCue] at hseg ⊢
    simp [hseg]
  · refine ⟨"\n\n" ++ String.intercalate "\n\n" (o.segments.map vttCue), ?_⟩
    show "WEBVTT\n\n" ++ _ = "WEBVTT" ++ ("\n\n" ++ _)
    rw [← String.append_assoc]
    rfl
  · intro q hq
    have h3600 := jsMod_bounds q 3600 hq (by norm_num)
    have h60 := jsMod_bounds q 60 hq (by norm_num)
    have h1 := jsMod_bounds q 1 hq (by norm_num)
    refine ⟨⟨?_, ?_⟩, ⟨?_, ?_⟩, ⟨?_, ?_⟩⟩
    · exact Int.floor_nonneg.mpr (div_nonneg h3600.1 (by norm_num))
    · have : jsMod q 3600 / 60 < (60 : ℚ) := by
        rw [div_lt_iff₀ (by norm_num : (0:ℚ) < 60)]
        linarith [h3600.2]
      exact_mod_cast Int.floor_lt.mpr (by exact_mod_cast this)
    · exact Int.floor_nonneg.mpr h60.1
    · exact_mod_cast Int.floor_lt.mpr (by exact_mod_cast h60.2)
    · exact Int.floor_nonneg.mpr (by nlinarith [h1.1])
    · have : jsMod q 1 * 1000 < (1000 : ℚ) := by nlinarith [h1.2]
      exact_mod_cast Int.floor_lt.mpr (by exact_mod_cast this)

/-- Witness for claim C10 at a concrete two-segment transcript, with the
cue, the full export and the timestamp fields evaluated. -/
theorem claim_C10_export_formats_witness :
    demoExportOpts.segments.get? 0 = some demoSeg0 ∧
    (0 : ℚ) ≤ 123 / 2 ∧
    (srtCues demoExportOpts.segments).get? 0 =
      some "1\n00:00:00,000 --> 00:00:01,500\nhello" ∧
    exportTranscript demoExportOpts .srt =
      "1\n00:00:00,000 --> 00:00:01,500\nhello\n\n2\n00:00:01,500 --> 00:00:03,000\nworld" ∧
    exportTranscript demoExportOpts .vtt =
      "WEBVTT\n\n00:00:00.000 --> 00:00:01.500\nhello\n\n00:00:01.500 --> 00:00:03.000\nworld" ∧
    (0 ≤ srtMinutes (123 / 2) ∧ srtMinutes (123 / 2) < 60) ∧
    formatSRT (123 / 2) = "00:01:01,500" := by
  have hcue := (claim_C10_export_formats demoExportOpts).2.2.1 0 demoSeg0 rfl
  have hq := ((claim_C10_export_formats demoExportOpts).2.2.2.2 (123 / 2) (by norm_num)).1
  exact ⟨rfl, by norm_num, by rw [hcue]; with_unfolding_all decide,
    by with_unfolding_all decide, by with_unfolding_all decide, hq,
    by with_unfolding_all decide⟩

end YT
